import Mathlib

/-!
Verification of the options-screening engine (`trading_bot.py`).

The engine is embedded shallowly:
* Python floats are modelled as exact rationals (`ℚ`); all arithmetic in the
  screener is elementary (+, -, *, /), so the rational model is the real-number
  semantics of the formulas in the source.
* A pandas DataFrame of put rows is a `List` of records; boolean-mask filters
  become `List.filter`, `iterrows` becomes iteration over the list,
  `DataFrame.sort_values('strike', ascending=False)` becomes a stable
  descending sort on `strike` (strikes within one expiry are pairwise distinct
  in any option chain, so the tie behaviour of pandas' unstable quicksort is
  irrelevant), and `Series.unique()` keeps first occurrences in order.
* Network effects (`get_current_price`, `ticker.options`) are modelled by a
  per-symbol snapshot `SymbolData`: `spot = none` models a failed/empty price
  fetch (`get_current_price` returns `None`), `expirations = none` models an
  exception inside `get_options_chain` (caught there, returning `None`).
  The flags `cspRaises`/`bpsRaises` model an uncaught exception escaping
  `screen_csp` resp. `screen_bull_put_spread` into the `try/except` of
  `screen_all_stocks`.
* `Python list.sort(key=..., reverse=True)` is a stable descending sort; it is
  modelled by `List.insertionSort` with the relation `keyDesc`, which is the
  unique stable descending sort.
* Date strings (`expiry_str`) are presentation only; an expiry is identified
  by an integer id.
-/

/-! ### Configuration constants (module-level constants of `trading_bot.py`) -/

def MIN_DTE : ℤ := 1
def MAX_DTE : ℤ := 7
def MIN_OTM_PERCENT : ℚ := 5
def MAX_OTM_PERCENT : ℚ := 10
def SPREAD_WIDTH : ℚ := 5
def MIN_RETURN_ON_RISK : ℚ := 20
def MIN_VOLUME : ℚ := 10
def MIN_OPEN_INTEREST : ℚ := 50

/-! ### Data model -/

/-- One row of a `chain.puts` DataFrame as fetched from the data source. -/
structure PutRow where
  strike : ℚ
  bid : ℚ
  ask : ℚ
  volume : ℤ
  openInterest : ℤ
  deriving DecidableEq, Repr

/-- One expiration returned by `ticker.options`, with its put table and the
`dte` computed as `(exp_date - current_date).days`. -/
structure ExpiryData where
  expiry : ℤ
  dte : ℤ
  puts : List PutRow
  deriving DecidableEq, Repr

/-- A row of the concatenated chain built by `get_options_chain`: a put row
with the columns `expiry` and `dte` attached. -/
structure OptionLeg where
  strike : ℚ
  bid : ℚ
  ask : ℚ
  volume : ℤ
  openInterest : ℤ
  expiry : ℤ
  dte : ℤ
  deriving DecidableEq, Repr

/-- Snapshot of everything the market-data source would answer for a symbol
during one scan, plus the exception behaviour of the two screeners. -/
structure SymbolData where
  spot : Option ℚ
  expirations : Option (List ExpiryData)
  cspRaises : Bool
  bpsRaises : Bool
  deriving DecidableEq, Repr

/-- A candidate emitted by `screen_csp` (the dict built there, minus the
redundant string column `expiry_str`). -/
structure CSPCandidate where
  symbol : String
  strategy : String
  current_price : ℚ
  strike : ℚ
  short_strike : ℚ
  long_strike : Option ℚ
  premium : ℚ
  bid : ℚ
  ask : ℚ
  credit : ℚ
  max_risk : ℚ
  otm_percent : ℚ
  return_on_risk : ℚ
  annualized_return : ℚ
  expiry : ℤ
  dte : ℤ
  volume : ℤ
  open_interest : ℤ
  deriving DecidableEq, Repr

/-- A candidate emitted by `screen_bull_put_spread` (the dict built there,
minus the redundant string column `expiry_str`). -/
structure SpreadCandidate where
  symbol : String
  strategy : String
  current_price : ℚ
  short_strike : ℚ
  long_strike : ℚ
  short_premium : ℚ
  long_premium : ℚ
  credit : ℚ
  spread_width : ℚ
  max_risk : ℚ
  otm_percent : ℚ
  return_on_risk : ℚ
  annualized_return : ℚ
  expiry : ℤ
  dte : ℤ
  short_volume : ℤ
  long_volume : ℤ
  deriving DecidableEq, Repr

/-! ### `OptionsScreener.get_options_chain` -/

/-- Body of `get_options_chain` once `ticker.options` succeeded: keep the
expirations whose `dte` lies in `[MIN_DTE, MAX_DTE]`, attach `expiry`/`dte`
columns to their put rows, and concatenate.  Mirrors the source: `None` when
the expiration list is empty or when no expiration survives the DTE filter
(`if all_puts:`); note the emptiness test is on the list of per-expiry
DataFrames, not on the total row count. -/
def get_options_chain_from (expirations : List ExpiryData) : Option (List OptionLeg) :=
  if expirations.isEmpty then none
  else
    let all_puts : List (List OptionLeg) :=
      (expirations.filter fun e => decide (MIN_DTE ≤ e.dte ∧ e.dte ≤ MAX_DTE)).map
        fun e => e.puts.map fun p =>
          { strike := p.strike, bid := p.bid, ask := p.ask, volume := p.volume,
            openInterest := p.openInterest, expiry := e.expiry, dte := e.dte }
    if all_puts.isEmpty then none else some all_puts.flatten

/-- `get_options_chain`: an exception during the fetch (modelled by
`none`) is caught and yields `None`. -/
def get_options_chain (expirations : Option (List ExpiryData)) : Option (List OptionLeg) :=
  match expirations with
  | none => none
  | some exps => get_options_chain_from exps

/-! ### `OptionsScreener.screen_csp` -/

/-- `screen_csp`.  `if not current_price` in Python also treats a price of
`0.0` as missing, hence the extra `p = 0` test. -/
def screen_csp (symbol : String) (d : SymbolData) : List CSPCandidate :=
  match d.spot with
  | none => []
  | some current_price =>
    if current_price = 0 then []
    else
      match get_options_chain d.expirations with
      | none => []
      | some chain =>
        if chain.isEmpty then []
        else
          let min_strike := current_price * (1 - MAX_OTM_PERCENT / 100)
          let max_strike := current_price * (1 - MIN_OTM_PERCENT / 100)
          let filtered := chain.filter fun r => decide
            (min_strike ≤ r.strike ∧ r.strike ≤ max_strike ∧
             MIN_VOLUME ≤ (r.volume : ℚ) ∧ MIN_OPEN_INTEREST ≤ (r.openInterest : ℚ) ∧
             0 < r.bid ∧ 0 < r.ask)
          filtered.filterMap fun row =>
            let premium := (row.bid + row.ask) / 2
            let otm_percent := (current_price - row.strike) / current_price * 100
            let return_on_risk := premium / row.strike * 100
            let max_risk := row.strike * 100
            if MIN_RETURN_ON_RISK ≤ return_on_risk then
              let annualized_return := return_on_risk * (365 / (row.dte : ℚ))
              some
                { symbol := symbol, strategy := "CSP", current_price := current_price,
                  strike := row.strike, short_strike := row.strike, long_strike := none,
                  premium := premium, bid := row.bid, ask := row.ask, credit := premium,
                  max_risk := max_risk, otm_percent := otm_percent,
                  return_on_risk := return_on_risk, annualized_return := annualized_return,
                  expiry := row.expiry, dte := row.dte, volume := row.volume,
                  open_interest := row.openInterest }
            else none

/-! ### `OptionsScreener.screen_bull_put_spread` -/

/-- `Series.unique()` of pandas: the distinct values in order of first
occurrence. -/
def pdUnique : List ℤ → List ℤ
  | [] => []
  | x :: xs => x :: pdUnique (xs.filter fun y => decide (y ≠ x))
termination_by l => l.length
decreasing_by
  simp only [List.length_cons]
  have hle := List.length_filter_le (fun y => decide (y ≠ x)) xs
  omega

/-- Descending order on `strike`, used for
`sort_values('strike', ascending=False)`. -/
def strikeDesc (a b : OptionLeg) : Prop := b.strike ≤ a.strike

instance : DecidableRel strikeDesc := fun a b =>
  inferInstanceAs (Decidable (b.strike ≤ a.strike))

instance : IsTotal OptionLeg strikeDesc :=
  ⟨fun a b => (le_total b.strike a.strike).imp id id⟩

instance : IsTrans OptionLeg strikeDesc :=
  ⟨fun _ _ _ h1 h2 => le_trans h2 h1⟩

/-- Body of the inner loop of `screen_bull_put_spread` for one short row of
one expiry group.  Returns the spread candidate built for this short leg, or
`none` when the short leg is skipped (out of the short-strike window, no long
leg within tolerance, or rejected by the risk/credit/return guards). -/
def matchSpread (symbol : String) (current_price min_strike max_strike : ℚ)
    (expiry_chain : List OptionLeg) (short_row : OptionLeg) : Option SpreadCandidate :=
  if short_row.strike < min_strike ∨ max_strike < short_row.strike then none
  else
    let long_strike := short_row.strike - SPREAD_WIDTH
    let long_options := expiry_chain.filter fun r => decide
      (long_strike - 0.50 ≤ r.strike ∧ r.strike ≤ long_strike + 0.50)
    match long_options with
    | [] => none
    | long_row :: _ =>
      let short_premium := (short_row.bid + short_row.ask) / 2
      let long_premium := (long_row.bid + long_row.ask) / 2
      let net_credit := short_premium - long_premium
      let actual_width := short_row.strike - long_row.strike
      let max_risk := (actual_width - net_credit) * 100
      if max_risk ≤ 0 ∨ net_credit ≤ 0 then none
      else
        let return_on_risk := net_credit / actual_width * 100
        if MIN_RETURN_ON_RISK ≤ return_on_risk then
          let otm_percent := (current_price - short_row.strike) / current_price * 100
          let annualized_return := return_on_risk * (365 / (short_row.dte : ℚ))
          some
            { symbol := symbol, strategy := "BPS", current_price := current_price,
              short_strike := short_row.strike, long_strike := long_row.strike,
              short_premium := short_premium, long_premium := long_premium,
              credit := net_credit, spread_width := actual_width, max_risk := max_risk,
              otm_percent := otm_percent, return_on_risk := return_on_risk,
              annualized_return := annualized_return, expiry := short_row.expiry,
              dte := short_row.dte, short_volume := short_row.volume,
              long_volume := long_row.volume }
        else none

/-- `screen_bull_put_spread`. -/
def screen_bull_put_spread (symbol : String) (d : SymbolData) : List SpreadCandidate :=
  match d.spot with
  | none => []
  | some current_price =>
    if current_price = 0 then []
    else
      match get_options_chain d.expirations with
      | none => []
      | some chain =>
        if chain.isEmpty then []
        else
          let min_strike := current_price * (1 - MAX_OTM_PERCENT / 100)
          let max_strike := current_price * (1 - MIN_OTM_PERCENT / 100)
          let filtered := chain.filter fun r => decide
            (min_strike - SPREAD_WIDTH ≤ r.strike ∧ r.strike ≤ max_strike ∧
             MIN_VOLUME / 2 ≤ (r.volume : ℚ) ∧ MIN_OPEN_INTEREST / 2 ≤ (r.openInterest : ℚ) ∧
             0 < r.bid ∧ 0 < r.ask)
          (pdUnique (filtered.map (·.expiry))).flatMap fun expiry =>
            let expiry_chain :=
              List.insertionSort strikeDesc (filtered.filter fun r => decide (r.expiry = expiry))
            expiry_chain.filterMap
              (matchSpread symbol current_price min_strike max_strike expiry_chain)

/-! ### `OptionsScreener.screen_all_stocks` -/

/-- Descending order by a rational-valued key; models Python's
`sort(key=..., reverse=True)` when used with the stable `insertionSort`. -/
def keyDesc {α : Type} (key : α → ℚ) (a b : α) : Prop := key b ≤ key a

instance {α : Type} (key : α → ℚ) : DecidableRel (keyDesc key) := fun a b =>
  inferInstanceAs (Decidable (key b ≤ key a))

instance {α : Type} (key : α → ℚ) : IsTotal α (keyDesc key) :=
  ⟨fun a b => (le_total (key b) (key a)).imp id id⟩

instance {α : Type} (key : α → ℚ) : IsTrans α (keyDesc key) :=
  ⟨fun _ _ _ h1 h2 => le_trans h2 h1⟩

/-- The body of the `for` loop of `screen_all_stocks` for one symbol: inside
`try`, extend the CSP list, then the BPS list; an uncaught exception from
`screen_csp` leaves both lists as they were, an uncaught exception from
`screen_bull_put_spread` happens after the CSP extension already took place. -/
def scanStep (data : String → SymbolData) (results : List CSPCandidate × List SpreadCandidate)
    (symbol : String) : List CSPCandidate × List SpreadCandidate :=
  let d := data symbol
  if d.cspRaises then results
  else
    let results1 := (results.1 ++ screen_csp symbol d, results.2)
    if d.bpsRaises then results1
    else (results1.1, results1.2 ++ screen_bull_put_spread symbol d)

/-- `screen_all_stocks`: fold the per-symbol step over the ticker universe,
then sort both lists descending by `annualized_return` (stable, as Python's
`list.sort`). -/
def screen_all_stocks (data : String → SymbolData) (tickers : List String) :
    List CSPCandidate × List SpreadCandidate :=
  let r := tickers.foldl (scanStep data) ([], [])
  (List.insertionSort (keyDesc (·.annualized_return)) r.1,
   List.insertionSort (keyDesc (·.annualized_return)) r.2)

/-- Per-symbol CSP contribution to the aggregate (empty when `screen_csp`
raises). -/
def symbolCSPContrib (symbol : String) (d : SymbolData) : List CSPCandidate :=
  if d.cspRaises then [] else screen_csp symbol d

/-- Per-symbol BPS contribution to the aggregate (empty when either screener
raises, since a `screen_csp` exception skips the BPS call and a
`screen_bull_put_spread` exception skips its extension). -/
def symbolBPSContrib (symbol : String) (d : SymbolData) : List SpreadCandidate :=
  if d.cspRaises then [] else if d.bpsRaises then [] else screen_bull_put_spread symbol d

/-- Number of `get_current_price` calls made while processing one symbol in
`screen_all_stocks`: `screen_csp` fetches the spot as its first statement
(failures inside `get_current_price` are caught there, so the call itself
always happens); if `screen_csp` does not raise an uncaught exception,
`screen_bull_put_spread` runs and fetches the spot again as its first
statement. -/
def symbolPriceFetches (d : SymbolData) : ℕ :=
  if d.cspRaises then 1 else 2

/-- The sequence of symbols for which `get_current_price` is called during a
whole scan, in order. -/
def scanPriceFetches (data : String → SymbolData) (tickers : List String) : List String :=
  tickers.flatMap fun s => List.replicate (symbolPriceFetches (data s)) s

/-! ### Concrete snapshots (scenarios of the specification) -/

/-- Scenario B put row: strike 92, bid 17.5, ask 19.3, liquid enough. -/
def legScenB : PutRow :=
  { strike := 92, bid := 17.5, ask := 19.3, volume := 10, openInterest := 50 }

/-- Scenario B snapshot: spot 100, one expiry at 5 DTE. -/
def dataScenB : SymbolData :=
  { spot := some 100, expirations := some [{ expiry := 0, dte := 5, puts := [legScenB] }],
    cspRaises := false, bpsRaises := false }

/-- The CSP candidate `screen_csp` emits for Scenario B. -/
def candScenB : CSPCandidate :=
  { symbol := "W", strategy := "CSP", current_price := 100, strike := 92, short_strike := 92,
    long_strike := none, premium := 18.4, bid := 17.5, ask := 19.3, credit := 18.4,
    max_risk := 9200, otm_percent := 8, return_on_risk := 20, annualized_return := 1460,
    expiry := 0, dte := 5, volume := 10, open_interest := 50 }

/-- Scenario C short put row: strike 95, bid 2.0, ask 2.2. -/
def shortScenC : PutRow :=
  { strike := 95, bid := 2.0, ask := 2.2, volume := 10, openInterest := 50 }

/-- Scenario C long put row: strike 90.2, bid 0.5, ask 0.7. -/
def longScenC : PutRow :=
  { strike := 90.2, bid := 0.5, ask := 0.7, volume := 10, openInterest := 50 }

/-- Scenario C snapshot: spot 100, one expiry at 5 DTE holding both legs. -/
def dataScenC : SymbolData :=
  { spot := some 100,
    expirations := some [{ expiry := 0, dte := 5, puts := [shortScenC, longScenC] }],
    cspRaises := false, bpsRaises := false }

/-- The spread candidate `screen_bull_put_spread` emits for Scenario C. -/
def candScenC : SpreadCandidate :=
  { symbol := "XYZ", strategy := "BPS", current_price := 100, short_strike := 95,
    long_strike := 90.2, short_premium := 2.1, long_premium := 0.6, credit := 1.5,
    spread_width := 4.8, max_risk := 330, otm_percent := 5, return_on_risk := 31.25,
    annualized_return := 2281.25, expiry := 0, dte := 5, short_volume := 10,
    long_volume := 10 }

/-- The Scenario C short leg as it appears in the concatenated chain. -/
def shortLegC : OptionLeg :=
  { strike := 95, bid := 2.0, ask := 2.2, volume := 10, openInterest := 50,
    expiry := 0, dte := 5 }

/-- The Scenario C long leg as it appears in the concatenated chain. -/
def longLegC : OptionLeg :=
  { strike := 90.2, bid := 0.5, ask := 0.7, volume := 10, openInterest := 50,
    expiry := 0, dte := 5 }

/-- A snapshot whose spot-price fetch fails. -/
def dataSpotFail : SymbolData :=
  { spot := none, expirations := none, cspRaises := false, bpsRaises := false }

/-- A snapshot whose BPS screening raises after a successful CSP screening:
Scenario B data with `bpsRaises` set. -/
def dataBpsRaises : SymbolData :=
  { spot := some 100, expirations := some [{ expiry := 0, dte := 5, puts := [legScenB] }],
    cspRaises := false, bpsRaises := true }

/-! ### Helper lemmas -/

/-- Every row of the chain built by `get_options_chain` carries a `dte`
inside the configured window. -/
theorem get_options_chain_dte {exps : Option (List ExpiryData)} {chain : List OptionLeg}
    (hc : get_options_chain exps = some chain) :
    ∀ row ∈ chain, MIN_DTE ≤ row.dte ∧ row.dte ≤ MAX_DTE := by
  intro row hrow
  rcases exps with _ | l
  · simp [get_options_chain] at hc
  · simp only [get_options_chain, get_options_chain_from] at hc
    split_ifs at hc with h1 h2
    rcases hc with ⟨rfl⟩
    rw [List.mem_flatten] at hrow
    obtain ⟨sub, hsub, hrowsub⟩ := hrow
    rw [List.mem_map] at hsub
    obtain ⟨e, he, rfl⟩ := hsub
    rw [List.mem_filter, decide_eq_true_eq] at he
    rw [List.mem_map] at hrowsub
    obtain ⟨p, _, rfl⟩ := hrowsub
    exact he.2

/-- Inversion for `screen_csp`: every emitted candidate comes from a chain row
inside the strike window and records the fetched spot, the row's data and the
computed metrics. -/
theorem mem_screen_csp {symbol : String} {d : SymbolData} {c : CSPCandidate}
    (h : c ∈ screen_csp symbol d) :
    ∃ (p : ℚ) (chain : List OptionLeg) (row : OptionLeg),
      d.spot = some p ∧ get_options_chain d.expirations = some chain ∧ row ∈ chain ∧
      c.current_price = p ∧ c.strike = row.strike ∧ c.dte = row.dte ∧
      c.return_on_risk = (row.bid + row.ask) / 2 / row.strike * 100 ∧
      p * (1 - MAX_OTM_PERCENT / 100) ≤ row.strike ∧
      row.strike ≤ p * (1 - MIN_OTM_PERCENT / 100) ∧
      MIN_RETURN_ON_RISK ≤ c.return_on_risk := by
  rcases hspot : d.spot with _ | p
  · rw [screen_csp, hspot] at h
    simp at h
  · rw [screen_csp, hspot] at h
    simp only at h
    split_ifs at h with hp
    · simp at h
    · rcases hchain : get_options_chain d.expirations with _ | chain
      · rw [hchain] at h; simp at h
      · rw [hchain] at h
        dsimp only at h
        split_ifs at h with hemp
        · simp at h
        · rw [List.mem_filterMap] at h
          obtain ⟨row, hrowmem, hf⟩ := h
          rw [List.mem_filter, decide_eq_true_eq] at hrowmem
          obtain ⟨hrowchain, hw1, hw2, _, _, _, _⟩ := hrowmem
          split_ifs at hf with hror
          · obtain ⟨rfl⟩ := hf
            exact ⟨p, chain, row, rfl, rfl, hrowchain, rfl, rfl, rfl, rfl, hw1, hw2, hror⟩

/-- `find?` returns the head of the filtered list: both are the first element
satisfying the predicate. -/
theorem find?_eq_head_filter {α : Type} (p : α → Bool) (l : List α) :
    l.find? p = (l.filter p).head? := by
  induction l with
  | nil => rfl
  | cons a t ih =>
    by_cases hpa : p a = true
    · rw [List.find?_cons_of_pos t hpa, List.filter_cons, if_pos hpa, List.head?_cons]
    · rw [List.find?_cons_of_neg t hpa, List.filter_cons, if_neg hpa, ih]

/-- Inversion for `matchSpread`: a produced candidate records the short row,
the head of the tolerance-filtered long candidates, and the computed metrics;
the short strike is inside the window and all guards passed. -/
theorem matchSpread_eq_some {symbol : String} {cp min_s max_s : ℚ}
    {expiry_chain : List OptionLeg} {short_row : OptionLeg} {c : SpreadCandidate}
    (h : matchSpread symbol cp min_s max_s expiry_chain short_row = some c) :
    ∃ (long_row : OptionLeg) (rest : List OptionLeg),
      expiry_chain.filter (fun r => decide
        (short_row.strike - SPREAD_WIDTH - 0.50 ≤ r.strike ∧
         r.strike ≤ short_row.strike - SPREAD_WIDTH + 0.50)) = long_row :: rest ∧
      min_s ≤ short_row.strike ∧ short_row.strike ≤ max_s ∧
      short_row.strike - SPREAD_WIDTH - 0.50 ≤ long_row.strike ∧
      long_row.strike ≤ short_row.strike - SPREAD_WIDTH + 0.50 ∧
      long_row ∈ expiry_chain ∧
      c.current_price = cp ∧ c.short_strike = short_row.strike ∧
      c.long_strike = long_row.strike ∧ c.dte = short_row.dte ∧
      c.credit = (short_row.bid + short_row.ask) / 2 - (long_row.bid + long_row.ask) / 2 ∧
      c.spread_width = short_row.strike - long_row.strike ∧
      c.max_risk = (c.spread_width - c.credit) * 100 ∧
      c.return_on_risk = c.credit / c.spread_width * 100 ∧
      ¬((short_row.strike - long_row.strike -
          ((short_row.bid + short_row.ask) / 2 - (long_row.bid + long_row.ask) / 2)) * 100 ≤ 0 ∨
        (short_row.bid + short_row.ask) / 2 - (long_row.bid + long_row.ask) / 2 ≤ 0) ∧
      MIN_RETURN_ON_RISK ≤ c.return_on_risk := by
  rw [matchSpread] at h
  split_ifs at h with hskip
  dsimp only at h
  rcases hlo : expiry_chain.filter (fun r => decide
      (short_row.strike - SPREAD_WIDTH - 0.50 ≤ r.strike ∧
       r.strike ≤ short_row.strike - SPREAD_WIDTH + 0.50)) with _ | ⟨long_row, rest⟩
  · rw [hlo] at h
    simp at h
  · rw [hlo] at h
    dsimp only at h
    have hlong : long_row ∈ expiry_chain ∧
        (short_row.strike - SPREAD_WIDTH - 0.50 ≤ long_row.strike ∧
         long_row.strike ≤ short_row.strike - SPREAD_WIDTH + 0.50) := by
      have hm : long_row ∈ long_row :: rest := List.mem_cons_self _ _
      rw [← hlo, List.mem_filter, decide_eq_true_eq] at hm
      exact hm
    push_neg at hskip
    split_ifs at h with hguard hror
    obtain ⟨rfl⟩ := h
    exact ⟨long_row, rest, hlo, hskip.1, hskip.2, hlong.2.1, hlong.2.2, hlong.1,
      rfl, rfl, rfl, rfl, rfl, rfl, rfl, rfl, hguard, hror⟩

/-- Inversion for `screen_bull_put_spread`: every emitted candidate is built by
`matchSpread` over some expiry group whose rows all come from the fetched
chain, for the strike window computed from the fetched spot. -/
theorem mem_screen_bull_put_spread {symbol : String} {d : SymbolData} {c : SpreadCandidate}
    (h : c ∈ screen_bull_put_spread symbol d) :
    ∃ (p : ℚ) (chain expiry_chain : List OptionLeg) (short_row : OptionLeg),
      d.spot = some p ∧ get_options_chain d.expirations = some chain ∧
      (∀ r ∈ expiry_chain, r ∈ chain) ∧ short_row ∈ expiry_chain ∧
      matchSpread symbol p (p * (1 - MAX_OTM_PERCENT / 100))
        (p * (1 - MIN_OTM_PERCENT / 100)) expiry_chain short_row = some c := by
  rcases hspot : d.spot with _ | p
  · rw [screen_bull_put_spread, hspot] at h
    simp at h
  · rw [screen_bull_put_spread, hspot] at h
    dsimp only at h
    split_ifs at h with hp
    · simp at h
    · rcases hchain : get_options_chain d.expirations with _ | chain
      · rw [hchain] at h; simp at h
      · rw [hchain] at h
        dsimp only at h
        split_ifs at h with hemp
        · simp at h
        · rw [List.mem_flatMap] at h
          obtain ⟨expiry, _, hc⟩ := h
          rw [List.mem_filterMap] at hc
          obtain ⟨short_row, hsr, hms⟩ := hc
          refine ⟨p, chain, _, short_row, rfl, rfl, ?_, hsr, hms⟩
          intro r hr
          rw [List.mem_insertionSort, List.mem_filter] at hr
          have hr2 := hr.1
          rw [List.mem_filter] at hr2
          exact hr2.1

/-- The fold of `scanStep` appends each symbol's per-symbol contribution to
the two result lists, in universe iteration order. -/
theorem foldl_scanStep (data : String → SymbolData) :
    ∀ (tickers : List String) (acc : List CSPCandidate × List SpreadCandidate),
      tickers.foldl (scanStep data) acc =
        (acc.1 ++ tickers.flatMap fun s => symbolCSPContrib s (data s),
         acc.2 ++ tickers.flatMap fun s => symbolBPSContrib s (data s)) := by
  intro tickers
  induction tickers with
  | nil => intro acc; simp
  | cons t ts ih =>
    intro acc
    rw [List.foldl_cons, ih]
    simp only [scanStep, symbolCSPContrib, symbolBPSContrib, List.flatMap_cons]
    by_cases h1 : (data t).cspRaises
    · simp [h1]
    · by_cases h2 : (data t).bpsRaises <;> simp [h1, h2, List.append_assoc]

/-- `screen_all_stocks` is the stable descending sort of the concatenated
per-symbol contributions. -/
theorem screen_all_stocks_eq (data : String → SymbolData) (tickers : List String) :
    screen_all_stocks data tickers =
      (List.insertionSort (keyDesc CSPCandidate.annualized_return)
         (tickers.flatMap fun s => symbolCSPContrib s (data s)),
       List.insertionSort (keyDesc SpreadCandidate.annualized_return)
         (tickers.flatMap fun s => symbolBPSContrib s (data s))) := by
  unfold screen_all_stocks
  rw [foldl_scanStep]
  rfl

/-- Filtering the rows with a given key value commutes with `orderedInsert`
for the descending-key order: the inserted element lands in front of every
element sharing its key. -/
theorem filter_orderedInsert_keyDesc {α : Type} (key : α → ℚ) (q : ℚ) (a : α) :
    ∀ s : List α,
      (List.orderedInsert (keyDesc key) a s).filter (fun x => decide (key x = q)) =
        if key a = q then a :: s.filter (fun x => decide (key x = q))
        else s.filter (fun x => decide (key x = q)) := by
  intro s
  induction s with
  | nil =>
    by_cases hq : key a = q <;> simp [List.orderedInsert, List.filter_cons, hq]
  | cons b t ih =>
    rw [List.orderedInsert]
    by_cases hab : keyDesc key a b
    · rw [if_pos hab]
      by_cases hq : key a = q <;> simp [List.filter_cons, hq]
    · rw [if_neg hab]
      have hba : key a < key b := lt_of_not_le fun hle => hab hle
      by_cases hq : key a = q
      · have hbq : ¬ key b = q := by
          intro hbq
          rw [hq, hbq] at hba
          exact lt_irrefl q hba
        simp [List.filter_cons, ih, hq, hbq]
      · simp [List.filter_cons, ih, hq]

/-- Stability of the stable descending sort: the elements carrying any fixed
key value appear in the sorted output exactly in their original order. -/
theorem filter_insertionSort_keyDesc {α : Type} (key : α → ℚ) (q : ℚ) :
    ∀ l : List α,
      (List.insertionSort (keyDesc key) l).filter (fun x => decide (key x = q)) =
        l.filter (fun x => decide (key x = q)) := by
  intro l
  induction l with
  | nil => rfl
  | cons a t ih =>
    rw [List.insertionSort, filter_orderedInsert_keyDesc, List.filter_cons]
    by_cases hq : key a = q
    · rw [if_pos hq, ih]
      simp [hq]
    · rw [if_neg hq, ih]
      simp [hq]

/-- `screen_csp` returns no candidates when the price fetch failed. -/
theorem screen_csp_spot_none {symbol : String} {d : SymbolData} (h : d.spot = none) :
    screen_csp symbol d = [] := by
  rw [screen_csp, h]

/-- `screen_bull_put_spread` returns no candidates when the price fetch
failed. -/
theorem screen_bps_spot_none {symbol : String} {d : SymbolData} (h : d.spot = none) :
    screen_bull_put_spread symbol d = [] := by
  rw [screen_bull_put_spread, h]

/-- A symbol whose price fetch fails or whose CSP screening raises
contributes no CSP candidates. -/
theorem symbolCSPContrib_eq_nil {s : String} {d : SymbolData}
    (h : d.spot = none ∨ d.cspRaises = true) : symbolCSPContrib s d = [] := by
  rcases h with h | h
  · rw [symbolCSPContrib]
    split_ifs
    · rfl
    · exact screen_csp_spot_none h
  · rw [symbolCSPContrib, if_pos h]

/-- A symbol whose price fetch fails or whose CSP or BPS screening raises
contributes no BPS candidates. -/
theorem symbolBPSContrib_eq_nil {s : String} {d : SymbolData}
    (h : d.spot = none ∨ d.cspRaises = true ∨ d.bpsRaises = true) :
    symbolBPSContrib s d = [] := by
  rcases h with h | h | h
  · rw [symbolBPSContrib]
    split_ifs
    · rfl
    · rfl
    · exact screen_bps_spot_none h
  · rw [symbolBPSContrib, if_pos h]
  · rw [symbolBPSContrib]
    split_ifs <;> rfl

/-! ### The claims -/

/-- C1: for every emitted candidate of either screener, the CSP `strike`
(resp. BPS `short_strike`) lies within the window
`[spot*(1-MAX_OTM_PERCENT/100), spot*(1-MIN_OTM_PERCENT/100)]`, where `spot`
is the current price fetched for that symbol (recorded in the candidate as
`current_price`). -/
theorem c1_strike_window :
    (∀ (symbol : String) (d : SymbolData) (c : CSPCandidate), c ∈ screen_csp symbol d →
        ∃ spot : ℚ, d.spot = some spot ∧ c.current_price = spot ∧
          spot * (1 - MAX_OTM_PERCENT / 100) ≤ c.strike ∧
          c.strike ≤ spot * (1 - MIN_OTM_PERCENT / 100)) ∧
    (∀ (symbol : String) (d : SymbolData) (c : SpreadCandidate),
        c ∈ screen_bull_put_spread symbol d →
        ∃ spot : ℚ, d.spot = some spot ∧ c.current_price = spot ∧
          spot * (1 - MAX_OTM_PERCENT / 100) ≤ c.short_strike ∧
          c.short_strike ≤ spot * (1 - MIN_OTM_PERCENT / 100)) := by
  constructor
  · intro symbol d c h
    obtain ⟨p, chain, row, hspot, -, -, hcp, hstrike, -, -, hw1, hw2, -⟩ := mem_screen_csp h
    exact ⟨p, hspot, hcp, by rw [hstrike]; exact hw1, by rw [hstrike]; exact hw2⟩
  · intro symbol d c h
    obtain ⟨p, chain, ec, sr, hspot, hchain, hsub, hsrmem, hms⟩ := mem_screen_bull_put_spread h
    obtain ⟨lr, rest, hfil, hmin, hmax, hlb, hub, hlmem, hcp, hss, hls, hdte, hcred, hwid,
      hmr, hrr, hguard, hthr⟩ := matchSpread_eq_some hms
    exact ⟨p, hspot, hcp, by rw [hss]; exact hmin, by rw [hss]; exact hmax⟩

/-- Witness for C1 at the Scenario B and Scenario C snapshots. -/
theorem c1_strike_window_witness :
    (∃ spot : ℚ, dataScenB.spot = some spot ∧ candScenB.current_price = spot ∧
        spot * (1 - MAX_OTM_PERCENT / 100) ≤ candScenB.strike ∧
        candScenB.strike ≤ spot * (1 - MIN_OTM_PERCENT / 100)) ∧
    (∃ spot : ℚ, dataScenC.spot = some spot ∧ candScenC.current_price = spot ∧
        spot * (1 - MAX_OTM_PERCENT / 100) ≤ candScenC.short_strike ∧
        candScenC.short_strike ≤ spot * (1 - MIN_OTM_PERCENT / 100)) :=
  ⟨c1_strike_window.1 "W" dataScenB candScenB (by
      rw [show screen_csp "W" dataScenB = [candScenB] by with_unfolding_all rfl]
      exact List.mem_singleton.mpr rfl),
   c1_strike_window.2 "XYZ" dataScenC candScenC (by
      rw [show screen_bull_put_spread "XYZ" dataScenC = [candScenC] by with_unfolding_all rfl]
      exact List.mem_singleton.mpr rfl)⟩

/-- C2: every emitted BPS candidate has `long_strike < short_strike`, a
positive net credit, a positive max risk, and an actual width within the
`±0.50` tolerance of `SPREAD_WIDTH`. -/
theorem c2_spread_validity (symbol : String) (d : SymbolData) (c : SpreadCandidate)
    (h : c ∈ screen_bull_put_spread symbol d) :
    c.long_strike < c.short_strike ∧ 0 < c.credit ∧ 0 < c.max_risk ∧
    |c.short_strike - c.long_strike - SPREAD_WIDTH| ≤ 0.50 := by
  obtain ⟨p, chain, ec, sr, hspot, hchain, hsub, hsrmem, hms⟩ := mem_screen_bull_put_spread h
  obtain ⟨lr, rest, hfil, hmin, hmax, hlb, hub, hlmem, hcp, hss, hls, hdte, hcred, hwid,
    hmr, hrr, hguard, hthr⟩ := matchSpread_eq_some hms
  push_neg at hguard
  obtain ⟨hA, hB⟩ := hguard
  have hW : SPREAD_WIDTH = 5 := rfl
  have hhalf : (0.50 : ℚ) = 1 / 2 := by norm_num
  refine ⟨?_, ?_, ?_, ?_⟩
  · rw [hls, hss]
    rw [hW] at hub
    rw [hhalf] at hub
    linarith
  · rw [hcred]
    exact hB
  · rw [hmr, hwid, hcred]
    exact hA
  · rw [hls, hss, abs_le, hhalf] at *
    constructor <;> linarith

/-- Witness for C2 at the Scenario C snapshot. -/
theorem c2_spread_validity_witness :
    candScenC.long_strike < candScenC.short_strike ∧ 0 < candScenC.credit ∧
    0 < candScenC.max_risk ∧
    |candScenC.short_strike - candScenC.long_strike - SPREAD_WIDTH| ≤ 0.50 :=
  c2_spread_validity "XYZ" dataScenC candScenC (by
    rw [show screen_bull_put_spread "XYZ" dataScenC = [candScenC] by with_unfolding_all rfl]
    exact List.mem_singleton.mpr rfl)

/-- C5: every candidate surfaced by either screener satisfies
`return_on_risk ≥ MIN_RETURN_ON_RISK`. -/
theorem c5_return_threshold :
    (∀ (symbol : String) (d : SymbolData) (c : CSPCandidate),
        c ∈ screen_csp symbol d → MIN_RETURN_ON_RISK ≤ c.return_on_risk) ∧
    (∀ (symbol : String) (d : SymbolData) (c : SpreadCandidate),
        c ∈ screen_bull_put_spread symbol d → MIN_RETURN_ON_RISK ≤ c.return_on_risk) := by
  constructor
  · intro symbol d c h
    obtain ⟨p, chain, row, -, -, -, -, -, -, -, -, -, hthr⟩ := mem_screen_csp h
    exact hthr
  · intro symbol d c h
    obtain ⟨p, chain, ec, sr, -, -, -, -, hms⟩ := mem_screen_bull_put_spread h
    obtain ⟨lr, rest, -, -, -, -, -, -, -, -, -, -, -, -, -, -, -, hthr⟩ :=
      matchSpread_eq_some hms
    exact hthr

/-- Witness for C5 at the Scenario B and Scenario C snapshots. -/
theorem c5_return_threshold_witness :
    MIN_RETURN_ON_RISK ≤ candScenB.return_on_risk ∧
    MIN_RETURN_ON_RISK ≤ candScenC.return_on_risk :=
  ⟨c5_return_threshold.1 "W" dataScenB candScenB (by
      rw [show screen_csp "W" dataScenB = [candScenB] by with_unfolding_all rfl]
      exact List.mem_singleton.mpr rfl),
   c5_return_threshold.2 "XYZ" dataScenC candScenC (by
      rw [show screen_bull_put_spread "XYZ" dataScenC = [candScenC] by with_unfolding_all rfl]
      exact List.mem_singleton.mpr rfl)⟩

/-- C8: every chain row surviving `get_options_chain` (hence every row whose
metrics are ever computed) and every emitted candidate carries a `dte` within
`[MIN_DTE, MAX_DTE]`; in particular `dte` is positive, so the annualization
factor `365/dte` is never evaluated at a zero or negative `dte`. -/
theorem c8_dte_window :
    (∀ (exps : Option (List ExpiryData)) (chain : List OptionLeg) (row : OptionLeg),
        get_options_chain exps = some chain → row ∈ chain →
        MIN_DTE ≤ row.dte ∧ row.dte ≤ MAX_DTE ∧ 0 < row.dte) ∧
    (∀ (symbol : String) (d : SymbolData) (c : CSPCandidate),
        c ∈ screen_csp symbol d → MIN_DTE ≤ c.dte ∧ c.dte ≤ MAX_DTE ∧ 0 < c.dte) ∧
    (∀ (symbol : String) (d : SymbolData) (c : SpreadCandidate),
        c ∈ screen_bull_put_spread symbol d →
        MIN_DTE ≤ c.dte ∧ c.dte ≤ MAX_DTE ∧ 0 < c.dte) := by
  have hmin : MIN_DTE = 1 := rfl
  refine ⟨?_, ?_, ?_⟩
  · intro exps chain row hc hrow
    obtain ⟨h1, h2⟩ := get_options_chain_dte hc row hrow
    exact ⟨h1, h2, by omega⟩
  · intro symbol d c h
    obtain ⟨p, chain, row, -, hchain, hrow, -, -, hdte, -, -, -, -⟩ := mem_screen_csp h
    obtain ⟨h1, h2⟩ := get_options_chain_dte hchain row hrow
    rw [hdte]
    exact ⟨h1, h2, by omega⟩
  · intro symbol d c h
    obtain ⟨p, chain, ec, sr, -, hchain, hsub, hsrmem, hms⟩ := mem_screen_bull_put_spread h
    obtain ⟨lr, rest, -, -, -, -, -, -, -, -, -, hdte, -, -, -, -, -, -⟩ :=
      matchSpread_eq_some hms
    obtain ⟨h1, h2⟩ := get_options_chain_dte hchain sr (hsub sr hsrmem)
    rw [hdte]
    exact ⟨h1, h2, by omega⟩

/-- Witness for C8 at the Scenario B and Scenario C snapshots. -/
theorem c8_dte_window_witness :
    (MIN_DTE ≤ shortLegC.dte ∧ shortLegC.dte ≤ MAX_DTE ∧ 0 < shortLegC.dte) ∧
    (MIN_DTE ≤ candScenB.dte ∧ candScenB.dte ≤ MAX_DTE ∧ 0 < candScenB.dte) ∧
    (MIN_DTE ≤ candScenC.dte ∧ candScenC.dte ≤ MAX_DTE ∧ 0 < candScenC.dte) :=
  ⟨c8_dte_window.1 dataScenC.expirations [shortLegC, longLegC] shortLegC
      (by with_unfolding_all rfl) (List.mem_cons_self _ _),
   c8_dte_window.2.1 "W" dataScenB candScenB (by
      rw [show screen_csp "W" dataScenB = [candScenB] by with_unfolding_all rfl]
      exact List.mem_singleton.mpr rfl),
   c8_dte_window.2.2 "XYZ" dataScenC candScenC (by
      rw [show screen_bull_put_spread "XYZ" dataScenC = [candScenC] by with_unfolding_all rfl]
      exact List.mem_singleton.mpr rfl)⟩

/-- C10: the return-on-risk division of the spread matcher is reached only
with a positive `actual_width`.  Whenever the pair survives the guard
`max_risk ≤ 0 or net_credit ≤ 0` (the precondition of the division), the
width `short.strike - long.strike` is strictly positive; consequently every
candidate produced by `matchSpread` has a positive `spread_width`, and the
division is never by zero. -/
theorem c10_division_guard :
    (∀ s l : OptionLeg,
        ¬((s.strike - l.strike - ((s.bid + s.ask) / 2 - (l.bid + l.ask) / 2)) * 100 ≤ 0 ∨
          (s.bid + s.ask) / 2 - (l.bid + l.ask) / 2 ≤ 0) →
        0 < s.strike - l.strike) ∧
    (∀ (symbol : String) (cp min_s max_s : ℚ) (expiry_chain : List OptionLeg)
        (short_row : OptionLeg) (c : SpreadCandidate),
        matchSpread symbol cp min_s max_s expiry_chain short_row = some c →
        0 < c.spread_width) := by
  constructor
  · intro s l hg
    push_neg at hg
    obtain ⟨hA, hB⟩ := hg
    nlinarith
  · intro symbol cp min_s max_s expiry_chain short_row c h
    obtain ⟨lr, rest, -, -, -, -, -, -, -, -, -, -, -, hwid, -, -, hguard, -⟩ :=
      matchSpread_eq_some h
    push_neg at hguard
    obtain ⟨hA, hB⟩ := hguard
    rw [hwid]
    nlinarith

/-- Witness for C10 at the Scenario C legs. -/
theorem c10_division_guard_witness :
    0 < shortLegC.strike - longLegC.strike ∧ 0 < candScenC.spread_width :=
  ⟨c10_division_guard.1 shortLegC longLegC (by
      with_unfolding_all decide),
   c10_division_guard.2 "XYZ" 100 90 95 [shortLegC, longLegC] shortLegC candScenC (by
      with_unfolding_all rfl)⟩

/-- C3: each short leg yields at most one spread candidate; when one is
produced, its long leg is the first row of the expiry group (in the group's
existing, descending-strike order) whose strike lies in
`[short_strike - SPREAD_WIDTH - 0.5, short_strike - SPREAD_WIDTH + 0.5]` —
`find?` returns exactly that first match, not necessarily the closest one;
and a short leg with no row in that window yields no candidate (and the total
function raises no error). -/
theorem c3_first_long_match (symbol : String) (cp min_s max_s : ℚ)
    (expiry_chain : List OptionLeg) (short_row : OptionLeg) :
    (matchSpread symbol cp min_s max_s expiry_chain short_row).toList.length ≤ 1 ∧
    (∀ c : SpreadCandidate,
        matchSpread symbol cp min_s max_s expiry_chain short_row = some c →
        ∃ long_row : OptionLeg,
          expiry_chain.find? (fun r => decide
            (short_row.strike - SPREAD_WIDTH - 0.50 ≤ r.strike ∧
             r.strike ≤ short_row.strike - SPREAD_WIDTH + 0.50)) = some long_row ∧
          c.long_strike = long_row.strike ∧ c.short_strike = short_row.strike) ∧
    (expiry_chain.find? (fun r => decide
        (short_row.strike - SPREAD_WIDTH - 0.50 ≤ r.strike ∧
         r.strike ≤ short_row.strike - SPREAD_WIDTH + 0.50)) = none →
      matchSpread symbol cp min_s max_s expiry_chain short_row = none) := by
  refine ⟨?_, ?_, ?_⟩
  · cases matchSpread symbol cp min_s max_s expiry_chain short_row <;> simp
  · intro c h
    obtain ⟨lr, rest, hfil, -, -, -, -, -, -, hss, hls, -, -, -, -, -, -, -⟩ :=
      matchSpread_eq_some h
    refine ⟨lr, ?_, hls, hss⟩
    rw [find?_eq_head_filter, hfil]
    rfl
  · intro hnone
    rw [find?_eq_head_filter] at hnone
    have hfil : expiry_chain.filter (fun r => decide
        (short_row.strike - SPREAD_WIDTH - 0.50 ≤ r.strike ∧
         r.strike ≤ short_row.strike - SPREAD_WIDTH + 0.50)) = [] :=
      List.head?_eq_none_iff.mp hnone
    rw [matchSpread]
    by_cases hskip : short_row.strike < min_s ∨ max_s < short_row.strike
    · rw [if_pos hskip]
    · rw [if_neg hskip]
      dsimp only
      rw [hfil]

/-- Witness for C3: on the Scenario C expiry group the produced candidate's
long leg is the `find?` result, and on a group holding only the short leg no
candidate is produced. -/
theorem c3_first_long_match_witness :
    (∃ long_row : OptionLeg,
        ([shortLegC, longLegC].find? (fun r => decide
          (shortLegC.strike - SPREAD_WIDTH - 0.50 ≤ r.strike ∧
           r.strike ≤ shortLegC.strike - SPREAD_WIDTH + 0.50)) = some long_row ∧
        candScenC.long_strike = long_row.strike ∧
        candScenC.short_strike = shortLegC.strike)) ∧
    matchSpread "XYZ" 100 90 95 [shortLegC] shortLegC = none :=
  ⟨(c3_first_long_match "XYZ" 100 90 95 [shortLegC, longLegC] shortLegC).2.1 candScenC
      (by with_unfolding_all rfl),
   (c3_first_long_match "XYZ" 100 90 95 [shortLegC] shortLegC).2.2
      (by with_unfolding_all rfl)⟩

/-- C6: both final sequences of `screen_all_stocks` are non-increasing in
`annualized_return`, and the sort is stable: for every key value, the
candidates carrying it appear in the output exactly in arrival order
(universe iteration order, then per-symbol emission order). -/
theorem c6_sorted_stable (data : String → SymbolData) (tickers : List String) :
    List.Sorted (keyDesc CSPCandidate.annualized_return) (screen_all_stocks data tickers).1 ∧
    List.Sorted (keyDesc SpreadCandidate.annualized_return) (screen_all_stocks data tickers).2 ∧
    (∀ q : ℚ, ((screen_all_stocks data tickers).1.filter
        fun c => decide (c.annualized_return = q)) =
      ((tickers.flatMap fun s => symbolCSPContrib s (data s)).filter
        fun c => decide (c.annualized_return = q))) ∧
    (∀ q : ℚ, ((screen_all_stocks data tickers).2.filter
        fun c => decide (c.annualized_return = q)) =
      ((tickers.flatMap fun s => symbolBPSContrib s (data s)).filter
        fun c => decide (c.annualized_return = q))) := by
  rw [screen_all_stocks_eq]
  exact ⟨List.sorted_insertionSort _ _, List.sorted_insertionSort _ _,
    fun q => filter_insertionSort_keyDesc _ q _, fun q => filter_insertionSort_keyDesc _ q _⟩

/-- C7: on the Scenario C snapshot (spot 100; short leg 95 with bid 2.0 and
ask 2.2; long leg 90.2 with bid 0.5 and ask 0.7) the spread matcher emits
exactly one candidate, with `net_credit = 1.5`, `spread_width = 4.8`,
`max_risk = 330` and `return_on_risk = 31.25`. -/
theorem c7_scenario_c :
    (screen_bull_put_spread "XYZ" dataScenC).map
        (fun c => (c.credit, c.spread_width, c.max_risk, c.return_on_risk)) =
      [(1.5, 4.8, 330, 31.25)] := by
  with_unfolding_all rfl

/-- C4 (amended): the scan is total and per-symbol failures are isolated.  If
symbol `X`'s price fetch fails or its CSP screening raises, the whole scan
result equals the scan in which `X` contributes nothing — every other
symbol's candidates are unaffected and `X` contributes zero candidates.  If
`X`'s BPS screening raises, the BPS result likewise contains nothing from
`X`; however its CSP candidates, appended before the exception, remain (see
the counterexample to the original claim). -/
theorem c4_failure_isolation :
    (∀ (data : String → SymbolData) (tickers : List String) (X : String),
        ((data X).spot = none ∨ (data X).cspRaises = true) →
        screen_all_stocks data tickers =
          (List.insertionSort (keyDesc CSPCandidate.annualized_return)
             (tickers.flatMap fun s => if s = X then [] else symbolCSPContrib s (data s)),
           List.insertionSort (keyDesc SpreadCandidate.annualized_return)
             (tickers.flatMap fun s => if s = X then [] else symbolBPSContrib s (data s)))) ∧
    (∀ (data : String → SymbolData) (tickers : List String) (X : String),
        (data X).bpsRaises = true →
        (screen_all_stocks data tickers).2 =
          List.insertionSort (keyDesc SpreadCandidate.annualized_return)
            (tickers.flatMap fun s => if s = X then [] else symbolBPSContrib s (data s))) := by
  constructor
  · intro data tickers X hfail
    rw [screen_all_stocks_eq]
    rw [show (fun s => symbolCSPContrib s (data s)) =
        (fun s => if s = X then [] else symbolCSPContrib s (data s)) from
      funext fun s => by
        by_cases hs : s = X
        · rw [if_pos hs, hs, symbolCSPContrib_eq_nil hfail]
        · rw [if_neg hs]]
    rw [show (fun s => symbolBPSContrib s (data s)) =
        (fun s => if s = X then [] else symbolBPSContrib s (data s)) from
      funext fun s => by
        by_cases hs : s = X
        · rw [if_pos hs, hs, symbolBPSContrib_eq_nil (hfail.imp id Or.inl)]
        · rw [if_neg hs]]
  · intro data tickers X hbps
    rw [screen_all_stocks_eq]
    rw [show (fun s => symbolBPSContrib s (data s)) =
        (fun s => if s = X then [] else symbolBPSContrib s (data s)) from
      funext fun s => by
        by_cases hs : s = X
        · rw [if_pos hs, hs, symbolBPSContrib_eq_nil (Or.inr (Or.inr hbps))]
        · rw [if_neg hs]]

/-- Counterexample to C4 as stated: a symbol whose BPS screening raises an
exception during its processing still contributes its CSP candidates — the
CSP list was extended before the exception.  Here the scan of the single
symbol `"XFAIL"` (whose processing raises in the BPS stage) produces a CSP
aggregate containing a candidate of `"XFAIL"`, not zero candidates. -/
theorem c4_counterexample :
    dataBpsRaises.bpsRaises = true ∧
    ((screen_all_stocks (fun _ => dataBpsRaises) ["XFAIL"]).1.map CSPCandidate.symbol) =
      ["XFAIL"] :=
  ⟨rfl, by with_unfolding_all rfl⟩

/-- Witness for C4 (amended) at concrete failing snapshots. -/
theorem c4_failure_isolation_witness :
    (screen_all_stocks (fun _ => dataSpotFail) ["A"] =
      (List.insertionSort (keyDesc CSPCandidate.annualized_return)
         (["A"].flatMap fun s =>
            if s = "A" then [] else symbolCSPContrib s ((fun _ => dataSpotFail) s)),
       List.insertionSort (keyDesc SpreadCandidate.annualized_return)
         (["A"].flatMap fun s =>
            if s = "A" then [] else symbolBPSContrib s ((fun _ => dataSpotFail) s)))) ∧
    ((screen_all_stocks (fun _ => dataBpsRaises) ["B"]).2 =
      List.insertionSort (keyDesc SpreadCandidate.annualized_return)
        (["B"].flatMap fun s =>
           if s = "B" then [] else symbolBPSContrib s ((fun _ => dataBpsRaises) s))) :=
  ⟨c4_failure_isolation.1 (fun _ => dataSpotFail) ["A"] "A" (Or.inl rfl),
   c4_failure_isolation.2 (fun _ => dataBpsRaises) ["B"] "B" rfl⟩

/-- C9 (amended): during one scan, for every symbol whose CSP screening does
not raise, the spot price is fetched exactly twice per occurrence in the
universe — once by `screen_csp` and once by `screen_bull_put_spread` — not
once: the two screeners do not share a quote snapshot. -/
theorem c9_fetch_count (data : String → SymbolData) (tickers : List String) (sym : String)
    (h : ∀ s ∈ tickers, (data s).cspRaises = false) :
    (scanPriceFetches data tickers).count sym = 2 * tickers.count sym := by
  induction tickers with
  | nil => rfl
  | cons t ts ih =>
    have ht : (data t).cspRaises = false := h t (List.mem_cons_self t ts)
    have hts : ∀ s ∈ ts, (data s).cspRaises = false :=
      fun s hs => h s (List.mem_cons_of_mem t hs)
    have hf : symbolPriceFetches (data t) = 2 := by
      rw [symbolPriceFetches, ht]
      rfl
    have ihx := ih hts
    rw [scanPriceFetches, List.flatMap_cons, List.count_append, hf, List.count_cons]
    rw [scanPriceFetches] at ihx
    rw [ihx, List.count_replicate]
    cases h2 : (t == sym) <;> simp [h2] <;> omega

/-- Counterexample to C9 as stated: a clean single-symbol scan fetches the
symbol's spot price twice (once per screener), not exactly once. -/
theorem c9_counterexample :
    dataScenB.cspRaises = false ∧
    (scanPriceFetches (fun _ => dataScenB) ["AAPL"]).count "AAPL" = 2 ∧
    (scanPriceFetches (fun _ => dataScenB) ["AAPL"]).count "AAPL" ≠ 1 := by
  refine ⟨rfl, ?_, ?_⟩
  · rfl
  · decide

/-- Witness for C9 (amended) at a concrete clean scan. -/
theorem c9_fetch_count_witness :
    (scanPriceFetches (fun _ => dataScenC) ["MSFT"]).count "MSFT" =
      2 * (["MSFT"].count "MSFT") :=
  c9_fetch_count (fun _ => dataScenC) ["MSFT"] "MSFT" (fun _ _ => rfl)
